import Mathlib

set_option maxHeartbeats 1000000

/-!
Shallow embedding of the rpc-websocket-client correlation engine
(`build/main/lib/index.js`): a model of decoded JavaScript values, the
message classifier (`isNotification` / `isRequest` / `isSuccessResponse` /
`isErrorResponse`), the envelope builders in strict and bare mode, the
pending-call table with its timeout semantics (`call`, the awaiter closure,
the timer callback), the `listen()` promise automaton, and the
`listenMessages()` dispatch order.
-/

/-- Model of a decoded JavaScript value (the result of `JSON.parse` on an
inbound frame, or a value passed as `params` / `result` / `error`), plus the
`undefined` marker that property access on a missing key yields. Object
fields are kept in insertion order, as JavaScript objects do. -/
inductive JsValue where
  | undefined : JsValue
  | nullV : JsValue
  | bool : Bool → JsValue
  | num : Int → JsValue
  | str : String → JsValue
  | obj : List (String × JsValue) → JsValue

/-- JavaScript truthiness: `undefined`, `null`, `false`, `0` and `""` are
falsy; every object is truthy. -/
def truthy : JsValue → Bool
  | .undefined => false
  | .nullV => false
  | .bool b => b
  | .num n => n != 0
  | .str s => s != ""
  | .obj _ => true

/-- `data.hasOwnProperty(k)`: own-property presence on an object; `false` on
every primitive. -/
def hasOwnProperty (v : JsValue) (k : String) : Bool :=
  match v with
  | .obj fs => fs.any (fun p => p.1 == k)
  | _ => false

/-- Property read `data.k` on a non-null receiver: the stored value on an
object (first binding for the key), `undefined` when the key is absent or
the receiver is a boxable primitive (boolean/number/string). In JavaScript a
property read off `null`/`undefined` throws a `TypeError` instead; the
embedding models that throw explicitly at the two places such a read is
reachable — `jsIsRpcError` (the awaiter's payload probe) and `onmessageRun`
(the `data.id` read on a `null` decode) — and every other use site only
applies this function to non-null receivers. -/
def getField (v : JsValue) (k : String) : JsValue :=
  match v with
  | .obj fs =>
    match fs.find? (fun p => p.1 == k) with
    | some p => p.2
    | none => .undefined
  | _ => .undefined

/-- Property write `data.k = x`: update in place when the key exists,
append otherwise; a no-op on primitives (the builders only ever write to
fresh objects). -/
def setField (v : JsValue) (k : String) (x : JsValue) : JsValue :=
  match v with
  | .obj fs =>
    if fs.any (fun p => p.1 == k) then
      .obj (fs.map (fun p => if p.1 == k then (k, x) else p))
    else
      .obj (fs ++ [(k, x)])
  | other => other

/-- Conversion of a value used as an object key (`this.idAwaiter[data.id]`):
JavaScript coerces the key with `String(·)`. -/
def jsKey : JsValue → String
  | .undefined => "undefined"
  | .nullV => "null"
  | .bool b => if b then "true" else "false"
  | .num n => toString n
  | .str s => s
  | .obj _ => "[object Object]"

/-- A JavaScript runtime failure; the only one this model needs is the
`TypeError` raised by invoking a non-function or reading a property off
`null`/`undefined`. -/
inductive JsError where
  | typeError : JsError
deriving DecidableEq

-- Message classifier (index.js lines 276-290)

/-- `isNotification(data)`: `!data.id` — identifier absent or falsy. -/
def isNotification (d : JsValue) : Bool := !(truthy (getField d "id"))

/-- `isRequest(data)`: `data.method` is truthy. -/
def isRequest (d : JsValue) : Bool := truthy (getField d "method")

/-- `isSuccessResponse(data)`: own `result` property, presence-based. -/
def isSuccessResponse (d : JsValue) : Bool := hasOwnProperty d "result"

/-- `isErrorResponse(data)`: own `error` property, presence-based. -/
def isErrorResponse (d : JsValue) : Bool := hasOwnProperty d "error"

/-- `isRpcError(data)`: `typeof data.code !== 'undefined'`. Reading `.code`
off `null` or `undefined` throws a `TypeError`, which the `Except` models. -/
def jsIsRpcError : JsValue → Except JsError Bool
  | .undefined => .error .typeError
  | .nullV => .error .typeError
  | v => .ok (match getField v "code" with
      | .undefined => false
      | _ => true)

/-- The four message categories of the engine, plus the fall-through for an
object matching none of the predicates. -/
inductive RpcCategory where
  | notificationMsg : RpcCategory
  | requestMsg : RpcCategory
  | successResponseMsg : RpcCategory
  | errorResponseMsg : RpcCategory
  | unclassified : RpcCategory
deriving DecidableEq

/-- The classification chain of `listenMessages()` (index.js lines 82-110):
`isNotification`, else `isRequest`, else `isSuccessResponse`, else
`isErrorResponse`, first match wins. -/
def classify (d : JsValue) : RpcCategory :=
  if isNotification d then .notificationMsg
  else if isRequest d then .requestMsg
  else if isSuccessResponse d then .successResponseMsg
  else if isErrorResponse d then .errorResponseMsg
  else .unclassified

-- Envelope builders (index.js lines 220-271). The `idv` argument stands for
-- the value `this.idFn()` returned at the call site (uuid/v1 by default,
-- replaceable via customId).

/-- `buildRequestBase(method, params)`: `{id, method, params?}` — `params`
is written only when truthy. -/
def buildRequestBase (idv : JsValue) (method : String) (params : JsValue) : JsValue :=
  .obj ([("id", idv), ("method", .str method)] ++
    (if truthy params then [("params", params)] else []))

/-- `buildRequest(method, params)`: the base envelope plus
`jsonrpc = "2.0"`. -/
def buildRequest (idv : JsValue) (method : String) (params : JsValue) : JsValue :=
  setField (buildRequestBase idv method params) "jsonrpc" (.str "2.0")

/-- `buildNotificationBase(method, params)`: `{method, params?}`. -/
def buildNotificationBase (method : String) (params : JsValue) : JsValue :=
  .obj ([("method", .str method)] ++
    (if truthy params then [("params", params)] else []))

/-- `buildNotification(method, params)`: the base envelope plus
`jsonrpc = "2.0"`. -/
def buildNotification (method : String) (params : JsValue) : JsValue :=
  setField (buildNotificationBase method params) "jsonrpc" (.str "2.0")

/-- `buildRpcSuccessResponseBase(id, result)`: `{id, result}`. -/
def buildRpcSuccessResponseBase (idv : JsValue) (result : JsValue) : JsValue :=
  .obj [("id", idv), ("result", result)]

/-- `buildRpcSuccessResponse(id, result)`: the base envelope plus
`jsonrpc = "2.0"`. -/
def buildRpcSuccessResponse (idv : JsValue) (result : JsValue) : JsValue :=
  setField (buildRpcSuccessResponseBase idv result) "jsonrpc" (.str "2.0")

/-- `buildRpcErrorResponseBase(id, error)`: `{id, error}`. -/
def buildRpcErrorResponseBase (idv : JsValue) (error : JsValue) : JsValue :=
  .obj [("id", idv), ("error", error)]

/-- `buildRpcErrorResponse(id, error)`: the base envelope plus
`jsonrpc = "2.0"`. -/
def buildRpcErrorResponse (idv : JsValue) (error : JsValue) : JsValue :=
  setField (buildRpcErrorResponseBase idv error) "jsonrpc" (.str "2.0")

/-- The four builder slots of a client instance. In the source these are
instance methods that `noRpc()` reassigns; the record models exactly that
function-valued state. -/
structure BuilderState where
  buildRequest : JsValue → String → JsValue → JsValue
  buildNotification : String → JsValue → JsValue
  buildRpcSuccessResponse : JsValue → JsValue → JsValue
  buildRpcErrorResponse : JsValue → JsValue → JsValue

/-- A freshly constructed client: the strict (jsonrpc-tagged) builders. -/
def initBuilders : BuilderState :=
  { buildRequest := buildRequest
    buildNotification := buildNotification
    buildRpcSuccessResponse := buildRpcSuccessResponse
    buildRpcErrorResponse := buildRpcErrorResponse }

/-- `noRpc()` (index.js lines 170-175): reassigns all four builder slots to
the bare variants. -/
def noRpc (c : BuilderState) : BuilderState :=
  { c with
    buildRequest := buildRequestBase
    buildNotification := buildNotificationBase
    buildRpcSuccessResponse := buildRpcSuccessResponseBase
    buildRpcErrorResponse := buildRpcErrorResponseBase }

-- Pending-call table and the correlation path of the onmessage handler.

/-- How a `call()` promise was settled. `resolvedWith` / `rejectedWith` come
from the awaiter closure (index.js lines 134-144); `rejectedTimeout` from the
timer callback (lines 127-131). -/
inductive Settlement where
  | resolvedWith : JsValue → Settlement
  | rejectedWith : JsValue → Settlement
  | rejectedTimeout : String → Settlement

/-- One entry of `this.idAwaiter`: the awaiter closure for a request. The
closure captures the request's `method` (used in the timeout message) and,
when `config.responseTimeout` was truthy at `call()` time, the absolute time
`armedAt + responseTimeout` at which the armed one-shot timer may fire. -/
structure PendingCall where
  method : String
  deadline : Option Nat

/-- The correlation state of one client: the `idAwaiter` table (keys are the
stringified request identifiers), the `config.responseTimeout` number
(`0` is falsy, i.e. the timeout is disabled), and a ghost log of promise
settlements, newest last, recording each `resolve` / `reject` the code
performs. -/
structure ClientState where
  idAwaiter : List (String × PendingCall)
  responseTimeout : Nat
  settlements : List (String × Settlement)

/-- Association-list erase: `delete this.idAwaiter[id]`. -/
def eraseKey (l : List (String × PendingCall)) (id : String) :
    List (String × PendingCall) :=
  l.filter (fun p => !(p.1 == id))

/-- Association-list write: `this.idAwaiter[id] = fn` (one binding per key). -/
def insertEntry (l : List (String × PendingCall)) (id : String)
    (pc : PendingCall) : List (String × PendingCall) :=
  (id, pc) :: eraseKey l id

/-- Association-list read: `this.idAwaiter[id]`, `none` meaning `undefined`. -/
def lookupEntry (l : List (String × PendingCall)) (id : String) :
    Option PendingCall :=
  (l.find? (fun p => p.1 == id)).map (fun p => p.2)

/-- The registration half of `call(method, params)` (index.js lines 121-147)
at time `now`: if `config.responseTimeout` is truthy a one-shot timer is
armed for `now + responseTimeout`, and the awaiter closure is stored under
the request's identifier `id` (the string `this.idFn()` returned). -/
def callRegister (s : ClientState) (now : Nat) (id : String)
    (method : String) : ClientState :=
  { s with
    idAwaiter := insertEntry s.idAwaiter id
      { method := method
        deadline := if s.responseTimeout ≠ 0
                    then some (now + s.responseTimeout) else none } }

/-- Whether the timer for `id` may fire at time `now`: the entry is still in
the table (the awaiter clears the timer when it removes the entry, and the
timer callback removes the entry itself), a timer was armed, and `setTimeout`
never fires before its deadline. -/
def timerCanFire (s : ClientState) (id : String) (now : Nat) : Bool :=
  match lookupEntry s.idAwaiter id with
  | some pc =>
    match pc.deadline with
    | some d => decide (d ≤ now)
    | none => false
  | none => false

/-- The rejection string of the timer callback:
`Awaiting response to: ${method} with id: ${data.id} timed out.` -/
def timeoutMessage (method : String) (id : String) : String :=
  "Awaiting response to: " ++ (method ++ (" with id: " ++ (id ++ " timed out.")))

/-- The timer callback (index.js lines 127-131): delete the table entry and
reject the promise with the timeout message. -/
def fireTimeout (s : ClientState) (id : String) : ClientState :=
  match lookupEntry s.idAwaiter id with
  | some pc =>
    { s with
      idAwaiter := eraseKey s.idAwaiter id
      settlements := s.settlements ++
        [(id, .rejectedTimeout (timeoutMessage pc.method id))] }
  | none => s

/-- The awaiter closure (index.js lines 134-144) applied to `responseData`:
clear the timer, delete the table entry, then `isRpcError(responseData)`
decides between `reject` and `resolve`. When `isRpcError` throws (a `null` or
`undefined` payload), the entry has already been deleted; the error carries
the state at the throw. -/
def invokeAwaiter (s : ClientState) (id : String) (payload : JsValue) :
    Except (JsError × ClientState) ClientState :=
  let s1 : ClientState := { s with idAwaiter := eraseKey s.idAwaiter id }
  match jsIsRpcError payload with
  | .error e => .error (e, s1)
  | .ok true =>
    .ok { s1 with settlements := s1.settlements ++ [(id, .rejectedWith payload)] }
  | .ok false =>
    .ok { s1 with settlements := s1.settlements ++ [(id, .resolvedWith payload)] }

/-- The correlation effect of the onmessage handler (index.js lines 81-110)
on a decoded message `data`: notifications and requests only reach their
subscriber lists; for a success or error response the handler evaluates
`this.idAwaiter[data.id]` and calls it on `data.result` / `data.error`.
When no awaiter is stored under that key, the lookup yields `undefined` and
the call raises a `TypeError` (state unchanged). -/
def processMessage (s : ClientState) (data : JsValue) :
    Except (JsError × ClientState) ClientState :=
  if isNotification data then .ok s
  else if isRequest data then .ok s
  else if isSuccessResponse data then
    match lookupEntry s.idAwaiter (jsKey (getField data "id")) with
    | some _ => invokeAwaiter s (jsKey (getField data "id")) (getField data "result")
    | none => .error (.typeError, s)
  else if isErrorResponse data then
    match lookupEntry s.idAwaiter (jsKey (getField data "id")) with
    | some _ => invokeAwaiter s (jsKey (getField data "id")) (getField data "error")
    | none => .error (.typeError, s)
  else .ok s

-- The listen() promise automaton (index.js lines 195-218).

/-- Settlement state of the promise `listen()` returns (and `connect()`
awaits). -/
inductive PromiseState where
  | pending : PromiseState
  | resolved : PromiseState
  | rejected : PromiseState
deriving DecidableEq

/-- Transport lifecycle events observed by the handlers `listen()` installs. -/
inductive LifecycleEvent where
  | wsOpen : LifecycleEvent
  | wsError : LifecycleEvent
  | wsClose : LifecycleEvent
deriving DecidableEq

/-- One lifecycle event against the `listen()` promise: `onopen` resolves,
`onclose` rejects, `onerror` only runs subscribers; a settled promise stays
settled (`resolve`/`reject` on a settled promise are no-ops). -/
def listenStep : PromiseState → LifecycleEvent → PromiseState
  | .pending, .wsOpen => .resolved
  | .pending, .wsClose => .rejected
  | .pending, .wsError => .pending
  | st, _ => st

/-- The `listen()` promise after a sequence of lifecycle events, starting
from `st`. -/
def listenFold (st : PromiseState) (evs : List LifecycleEvent) : PromiseState :=
  evs.foldl listenStep st

/-- The `listen()` promise after a sequence of lifecycle events on a fresh
connection. -/
def listenRun (evs : List LifecycleEvent) : PromiseState :=
  listenFold .pending evs

-- Dispatch order of the onmessage handler (index.js lines 69-112).

/-- The subscriber registries `listenMessages()` consults, each callback
identified by a tag; `previousOnMessage` is the handler that was already
attached to the socket when `listenMessages()` ran, if any. Lists are in
registration order (the `on*` methods push to the end). -/
structure Registries where
  previousOnMessage : Option Nat
  onAnyMessageHandlers : List Nat
  onNotification : List Nat
  onRequest : List Nat
  onSuccessResponse : List Nat
  onErrorResponse : List Nat

/-- The category registry the classification chain loops over for a message
of category `c` (no subscribers run for an unclassified message). -/
def categorySubscribers (r : Registries) : RpcCategory → List Nat
  | .notificationMsg => r.onNotification
  | .requestMsg => r.onRequest
  | .successResponseMsg => r.onSuccessResponse
  | .errorResponseMsg => r.onErrorResponse
  | .unclassified => []

/-- One run of the onmessage handler (index.js lines 74-111) on a decoded
message: the callbacks it invokes, in order, and the correlation outcome.
The previously attached handler (if one existed) and the any-message
handlers always run, before `JSON.parse`'s result is inspected. Then
`isNotification(data)` reads `data.id`: when the decode is `null` (the legal
JSON frame `null`) or `undefined`, that property read throws a `TypeError`,
so no category subscriber runs and the table is untouched. Otherwise the
classification chain picks the one matching category list, and for
success/error responses the correlation path (`processMessage`) follows the
category handlers. -/
def onmessageRun (r : Registries) (s : ClientState) (data : JsValue) :
    List Nat × Except (JsError × ClientState) ClientState :=
  let head :=
    (match r.previousOnMessage with
     | some p => [p]
     | none => []) ++
    r.onAnyMessageHandlers
  match data with
  | .nullV => (head, .error (.typeError, s))
  | .undefined => (head, .error (.typeError, s))
  | _ =>
    (head ++
      (if isNotification data then r.onNotification
       else if isRequest data then r.onRequest
       else if isSuccessResponse data then r.onSuccessResponse
       else if isErrorResponse data then r.onErrorResponse
       else []),
     processMessage s data)

-- Concrete instances used by the closed theorems below.

/-- A client with no pending calls and the default 10000 ms timeout. -/
def c1State : ClientState :=
  { idAwaiter := [], responseTimeout := 10000, settlements := [] }

/-- An inbound success response whose identifier has no pending call. -/
def c1Msg : JsValue := .obj [("id", .str "x"), ("result", .num 1)]

/-- A client configured with `responseTimeout = 50` and no pending calls. -/
def c2S0 : ClientState :=
  { idAwaiter := [], responseTimeout := 50, settlements := [] }

/-- The client after `call("m", ...)` registered id `"a"` at time 0. -/
def c2S1 : ClientState := callRegister c2S0 0 "a" "m"

/-- The client after the timer for id `"a"` fired. -/
def c2S2 : ClientState := fireTimeout c2S1 "a"

/-- A success response for id `"a"`, arriving after the timeout fired. -/
def c2LateMsg : JsValue := .obj [("id", .str "a"), ("result", .num 1)]

/-- A result payload that happens to carry a `code` property. -/
def c4Result : JsValue := .obj [("code", .num 7), ("message", .str "oops")]

/-- A well-formed success response for id `"a"` whose result carries a
`code` property. -/
def c4Msg : JsValue := .obj [("id", .str "a"), ("result", c4Result)]

/-- A client with a live pending call under id `"a"`. -/
def c4State : ClientState :=
  { idAwaiter := [("a", { method := "m", deadline := some 10 })]
    responseTimeout := 10
    settlements := [] }

/-- A client with a live pending call under id `"b"` and the timeout
disabled. -/
def c4wState : ClientState :=
  { idAwaiter := [("b", { method := "m", deadline := none })]
    responseTimeout := 0
    settlements := [] }

/-- A plain success response for id `"b"`. -/
def c4wMsg : JsValue := .obj [("id", .str "b"), ("result", .num 5)]

/-- A uuid/v1-shaped identifier, as the default generator produces. -/
def c6Uuid : String := "2c5ea4c0-4067-11e9-8bad-9b1deb4d3b7d"

/-- A client used to witness the timeout property: `responseTimeout = 50`,
nothing pending. -/
def c3wS : ClientState :=
  { idAwaiter := [], responseTimeout := 50, settlements := [] }

/-- A registry with one any-message subscriber (tag 1) and one notification
subscriber (tag 7), no previously attached handler. -/
def c9r : Registries :=
  { previousOnMessage := none
    onAnyMessageHandlers := [1]
    onNotification := [7]
    onRequest := []
    onSuccessResponse := []
    onErrorResponse := [] }

/-- A client state for the dispatch theorems: nothing pending. -/
def c9s : ClientState :=
  { idAwaiter := [], responseTimeout := 10000, settlements := [] }

-- Helper lemmas

theorem lookupEntry_insertEntry_self (l : List (String × PendingCall))
    (id : String) (pc : PendingCall) :
    lookupEntry (insertEntry l id pc) id = some pc := by
  simp [lookupEntry, insertEntry, List.find?]

theorem lookupEntry_eraseKey_self (l : List (String × PendingCall))
    (id : String) :
    lookupEntry (eraseKey l id) id = none := by
  simp only [lookupEntry, Option.map_eq_none']
  rw [List.find?_eq_none]
  intro x hx
  simp only [eraseKey, List.mem_filter, Bool.not_eq_true'] at hx
  simp [hx.2]

theorem strAppend_assoc (a b c : String) : (a ++ b) ++ c = a ++ (b ++ c) := by
  apply String.ext
  simp

theorem listenFold_of_ne_pending (evs : List LifecycleEvent)
    (st : PromiseState) (h : st ≠ PromiseState.pending) :
    listenFold st evs = st := by
  induction evs with
  | nil => rfl
  | cons e t ih =>
    have hstep : listenStep st e = st := by
      cases st with
      | pending => exact absurd rfl h
      | resolved => rfl
      | rejected => rfl
    show listenFold (listenStep st e) t = st
    rw [hstep]
    exact ih

theorem listenFold_pending_no_open (evs : List LifecycleEvent)
    (h : LifecycleEvent.wsOpen ∉ evs) :
    listenFold PromiseState.pending evs ≠ PromiseState.resolved := by
  induction evs with
  | nil => simp [listenFold]
  | cons e t ih =>
    cases e with
    | wsOpen => exact absurd (List.mem_cons_self _ _) h
    | wsError =>
      show listenFold PromiseState.pending t ≠ PromiseState.resolved
      exact ih (fun hm => h (List.mem_cons_of_mem _ hm))
    | wsClose =>
      show listenFold PromiseState.rejected t ≠ PromiseState.resolved
      rw [listenFold_of_ne_pending _ _ (by simp)]
      simp

-- Claim theorems

/-- C1: the claim says a success/error response whose identifier has no live
pending call is a no-op for correlation and raises no failure. The code
instead evaluates `this.idAwaiter[data.id]` to `undefined` and invokes it,
throwing a `TypeError` (the table itself is left unchanged): evaluating the
handler on `{"id":"x","result":1}` with an empty table raises the error. -/
theorem c1_unknown_id_throws :
    processMessage c1State c1Msg = .error (.typeError, c1State) ∧
    c1State.idAwaiter = [] :=
  ⟨rfl, rfl⟩

/-- C2: the timeout for a registered call can fire at its deadline, settles
the call exactly once with the timeout rejection and removes the table
entry — but the loser's action is not a no-op: the late matching response
throws a `TypeError` when the handler invokes the removed (now `undefined`)
awaiter, contradicting the claim's "the loser's action is a no-op". -/
theorem c2_late_response_throws :
    timerCanFire c2S1 "a" 50 = true ∧
    c2S2.settlements = [("a", Settlement.rejectedTimeout (timeoutMessage "m" "a"))] ∧
    lookupEntry c2S2.idAwaiter "a" = none ∧
    processMessage c2S2 c2LateMsg = .error (.typeError, c2S2) :=
  ⟨rfl, rfl, rfl, rfl⟩

/-- C5: consequences of the classifier's first-match-wins order: an object
with a truthy `method` and a truthy `id` classifies as Request (never
Notification), and an object with a truthy `id`, no truthy `method` and an
own `result` property (even a falsy one) classifies as SuccessResponse. -/
theorem c5_classifier_precedence (d : JsValue) :
    (truthy (getField d "method") = true → truthy (getField d "id") = true →
      classify d = RpcCategory.requestMsg) ∧
    (truthy (getField d "id") = true → truthy (getField d "method") = false →
      hasOwnProperty d "result" = true →
      classify d = RpcCategory.successResponseMsg) := by
  constructor
  · intro hm hid
    simp [classify, isNotification, isRequest, hid, hm]
  · intro hid hm hres
    simp [classify, isNotification, isRequest, isSuccessResponse, hid, hm, hres]

/-- Witness for C5 at concrete inputs: `{id:"1", method:"m"}` is a Request
and `{id:"1", result:null}` is a SuccessResponse. -/
theorem c5_classifier_precedence_witness :
    classify (JsValue.obj [("id", .str "1"), ("method", .str "m")]) =
      RpcCategory.requestMsg ∧
    classify (JsValue.obj [("id", .str "1"), ("result", .nullV)]) =
      RpcCategory.successResponseMsg :=
  ⟨(c5_classifier_precedence _).1 rfl rfl,
   (c5_classifier_precedence _).2 rfl rfl rfl⟩

/-- C7: `noRpc()` replaces all four builder slots at once with the bare
variants, and every envelope built afterward — Request, Notification,
SuccessResponse, ErrorResponse — contains no `jsonrpc` field. -/
theorem c7_noRpc_bare (c : BuilderState) :
    (noRpc c).buildRequest = buildRequestBase ∧
    (noRpc c).buildNotification = buildNotificationBase ∧
    (noRpc c).buildRpcSuccessResponse = buildRpcSuccessResponseBase ∧
    (noRpc c).buildRpcErrorResponse = buildRpcErrorResponseBase ∧
    (∀ idv method params,
      hasOwnProperty ((noRpc c).buildRequest idv method params) "jsonrpc" = false) ∧
    (∀ method params,
      hasOwnProperty ((noRpc c).buildNotification method params) "jsonrpc" = false) ∧
    (∀ idv result,
      hasOwnProperty ((noRpc c).buildRpcSuccessResponse idv result) "jsonrpc" = false) ∧
    (∀ idv error,
      hasOwnProperty ((noRpc c).buildRpcErrorResponse idv error) "jsonrpc" = false) := by
  refine ⟨rfl, rfl, rfl, rfl, ?_, ?_, ?_, ?_⟩
  · intro idv method params
    cases h : truthy params <;>
      simp [noRpc, hasOwnProperty, buildRequestBase, h]
  · intro method params
    cases h : truthy params <;>
      simp [noRpc, hasOwnProperty, buildNotificationBase, h]
  · intro idv result
    simp [noRpc, hasOwnProperty, buildRpcSuccessResponseBase]
  · intro idv error
    simp [noRpc, hasOwnProperty, buildRpcErrorResponseBase]

/-- C9 counterexample: the legal JSON frame `null` decodes to `null`; the
claim's classification rule (identifier absent or falsy, hence Notification)
says the notification subscriber (tag 7) runs after the any-message
subscriber (tag 1) — but the handler throws a `TypeError` reading `data.id`
right after the any-message subscribers, so only tag 1 runs and no category
subscriber is ever invoked. -/
theorem c9_dispatch_counterexample :
    (onmessageRun c9r c9s .nullV).1 = [1] ∧
    (onmessageRun c9r c9s .nullV).2 = .error (.typeError, c9s) ∧
    classify .nullV = RpcCategory.notificationMsg ∧
    categorySubscribers c9r (classify .nullV) = [7] ∧
    (onmessageRun c9r c9s .nullV).1 ≠
      c9r.previousOnMessage.toList ++ c9r.onAnyMessageHandlers ++
        categorySubscribers c9r (classify .nullV) :=
  ⟨rfl, rfl, rfl, rfl, by decide⟩

/-- C9 amended: on every inbound message whose decode is not `null` (nor the
unreachable `undefined`), the handler invokes the previously attached socket
handler first (when one existed at `listenMessages()` time), then all
any-message subscribers, then exactly the subscriber list of the message's
classified category, each list in registration order; on a `null` decode the
previous handler and the any-message subscribers still run in that order,
but the handler then throws a `TypeError` reading `data.id`, before any
category subscriber runs and with the table untouched. -/
theorem c9_dispatch_order_amended (r : Registries) (s : ClientState)
    (data : JsValue) (hnn : data ≠ JsValue.nullV)
    (hnu : data ≠ JsValue.undefined) :
    (onmessageRun r s data).1 =
      r.previousOnMessage.toList ++ r.onAnyMessageHandlers ++
        categorySubscribers r (classify data) ∧
    (onmessageRun r s JsValue.nullV).1 =
      r.previousOnMessage.toList ++ r.onAnyMessageHandlers ∧
    (onmessageRun r s JsValue.nullV).2 =
      Except.error (JsError.typeError, s) := by
  refine ⟨?_, ?_, ?_⟩
  · cases data with
    | undefined => exact absurd rfl hnu
    | nullV => exact absurd rfl hnn
    | bool b =>
      unfold onmessageRun classify categorySubscribers
      cases r.previousOnMessage <;> split_ifs <;> simp [Option.toList]
    | num n =>
      unfold onmessageRun classify categorySubscribers
      cases r.previousOnMessage <;> split_ifs <;> simp [Option.toList]
    | str s' =>
      unfold onmessageRun classify categorySubscribers
      cases r.previousOnMessage <;> split_ifs <;> simp [Option.toList]
    | obj fs =>
      unfold onmessageRun classify categorySubscribers
      cases r.previousOnMessage <;> split_ifs <;> simp [Option.toList]
  · unfold onmessageRun
    cases r.previousOnMessage <;> simp [Option.toList]
  · rfl

/-- Witness for C9 amended at the notification `{method:"m"}`: the
any-message subscriber runs, then the notification subscriber. -/
theorem c9_dispatch_order_amended_witness :
    (onmessageRun c9r c9s (JsValue.obj [("method", .str "m")])).1 =
      c9r.previousOnMessage.toList ++ c9r.onAnyMessageHandlers ++
        categorySubscribers c9r (classify (JsValue.obj [("method", .str "m")])) ∧
    (onmessageRun c9r c9s JsValue.nullV).1 =
      c9r.previousOnMessage.toList ++ c9r.onAnyMessageHandlers ∧
    (onmessageRun c9r c9s JsValue.nullV).2 =
      Except.error (JsError.typeError, c9s) :=
  c9_dispatch_order_amended c9r c9s (JsValue.obj [("method", .str "m")])
    (fun h => JsValue.noConfusion h) (fun h => JsValue.noConfusion h)

/-- C10: for every identifier, method and params value, the Request and
Notification envelopes (in both bare and strict mode, hence as built by
`call()` and `notify()` under either mode) carry a `params` field exactly
when the params argument is truthy; every falsy params (undefined, null, 0,
empty string, false) leaves the field out entirely. -/
theorem c10_params_iff_truthy (idv : JsValue) (method : String) (params : JsValue) :
    hasOwnProperty (buildRequestBase idv method params) "params" = truthy params ∧
    hasOwnProperty (buildRequest idv method params) "params" = truthy params ∧
    hasOwnProperty (buildNotificationBase method params) "params" = truthy params ∧
    hasOwnProperty (buildNotification method params) "params" = truthy params := by
  cases h : truthy params <;>
    simp [hasOwnProperty, buildRequestBase, buildRequest,
      buildNotificationBase, buildNotification, setField, h]

/-- C6 counterexample: with the empty method string (a legal `string`
argument), building a Request with a default-generator identifier and
classifying it does not yield Request — `data.method` is falsy, so the
envelope falls through the whole classification chain. -/
theorem c6_build_classify_counterexample :
    classify (initBuilders.buildRequest (.str c6Uuid) "" .undefined) =
      RpcCategory.unclassified ∧
    RpcCategory.unclassified ≠ RpcCategory.requestMsg :=
  ⟨rfl, by decide⟩

/-- C6 amended: for every truthy (nonempty) method string, every params
value, and any identifier string the default generator returns (uuid/v1
values are nonempty, hence truthy), building a Request envelope and
classifying it yields Request, and the envelope's `id` field is the
generated identifier unchanged. -/
theorem c6_build_classify_roundtrip (id : String)
    (hid : truthy (JsValue.str id) = true) (method : String)
    (hm : truthy (JsValue.str method) = true) (params : JsValue) :
    classify (initBuilders.buildRequest (.str id) method params) =
      RpcCategory.requestMsg ∧
    getField (initBuilders.buildRequest (.str id) method params) "id" =
      .str id := by
  have hbuilt : initBuilders.buildRequest (.str id) method params =
      .obj ([("id", .str id), ("method", .str method)] ++
        (if truthy params then [("params", params)] else []) ++
        [("jsonrpc", .str "2.0")]) := by
    cases h : truthy params <;>
      simp [initBuilders, buildRequest, buildRequestBase, setField, h]
  rw [hbuilt]
  cases h : truthy params <;>
    simp [h, classify, isNotification, isRequest, getField, List.find?, hid, hm]

/-- Witness for C6 amended at a concrete uuid, method and params. -/
theorem c6_build_classify_roundtrip_witness :
    classify (initBuilders.buildRequest (.str c6Uuid) "test" (.num 3)) =
      RpcCategory.requestMsg ∧
    getField (initBuilders.buildRequest (.str c6Uuid) "test" (.num 3)) "id" =
      .str c6Uuid :=
  c6_build_classify_roundtrip c6Uuid rfl "test" rfl (.num 3)

/-- C8 counterexample: a close event arriving before any open settles the
`connect()`/`listen()` promise as rejected — it does not leave it pending
forever as the claim states (the `onclose` handler calls `reject()`). -/
theorem c8_connect_counterexample :
    listenRun [LifecycleEvent.wsClose] = PromiseState.rejected ∧
    PromiseState.rejected ≠ PromiseState.pending :=
  ⟨rfl, by decide⟩

/-- C8 amended: the promise returned by `connect()` resolves only after an
open event fired; error events before open leave it pending (errors never
settle it), but a close event before any open rejects the promise rather
than leaving it pending. -/
theorem c8_connect_settlement (evs : List LifecycleEvent) :
    (listenRun evs = PromiseState.resolved → LifecycleEvent.wsOpen ∈ evs) ∧
    ((∀ e ∈ evs, e = LifecycleEvent.wsError) →
      listenRun evs = PromiseState.pending) ∧
    (∀ l₁ l₂, evs = l₁ ++ LifecycleEvent.wsClose :: l₂ →
      LifecycleEvent.wsOpen ∉ l₁ → listenRun evs = PromiseState.rejected) := by
  refine ⟨?_, ?_, ?_⟩
  · intro hres
    by_contra hmem
    exact listenFold_pending_no_open evs hmem hres
  · intro hall
    induction evs with
    | nil => rfl
    | cons e t ih =>
      have he : e = LifecycleEvent.wsError := hall e (List.mem_cons_self _ _)
      subst he
      show listenFold PromiseState.pending t = PromiseState.pending
      exact ih (fun x hx => hall x (List.mem_cons_of_mem _ hx))
  · intro l₁ l₂ hsplit hno
    subst hsplit
    show listenFold PromiseState.pending (l₁ ++ LifecycleEvent.wsClose :: l₂) =
      PromiseState.rejected
    rw [listenFold, List.foldl_append]
    have h1 : List.foldl listenStep PromiseState.pending l₁ ≠ PromiseState.resolved :=
      listenFold_pending_no_open l₁ hno
    have h2 : listenStep (List.foldl listenStep PromiseState.pending l₁)
        LifecycleEvent.wsClose = PromiseState.rejected := by
      cases hc : List.foldl listenStep PromiseState.pending l₁ with
      | pending => rfl
      | resolved => exact absurd hc h1
      | rejected => rfl
    show List.foldl listenStep _ (LifecycleEvent.wsClose :: l₂) = _
    rw [List.foldl_cons, h2]
    exact listenFold_of_ne_pending l₂ _ (by simp)

/-- Witness for C8 amended: an error event alone leaves the promise
pending, and open after the error resolves it. -/
theorem c8_connect_settlement_witness :
    listenRun [LifecycleEvent.wsError] = PromiseState.pending :=
  (c8_connect_settlement [LifecycleEvent.wsError]).2.1 (by decide)

/-- C3: for every configured `responseTimeout` T > 0, once `call()` has
registered its awaiter the armed timer cannot fire before `t0 + T`
(`setTimeout` never fires early), and when it fires the call settles as a
timeout rejection whose message carries the method name and the identifier,
and the identifier is removed from the pending-call table. -/
theorem c3_timeout_settlement (s : ClientState) (t0 : Nat) (id method : String)
    (T : Nat) (hT : 0 < T) (hcfg : s.responseTimeout = T) (t : Nat)
    (hfire : timerCanFire (callRegister s t0 id method) id t = true) :
    t0 + T ≤ t ∧
    lookupEntry (fireTimeout (callRegister s t0 id method) id).idAwaiter id = none ∧
    (fireTimeout (callRegister s t0 id method) id).settlements =
      s.settlements ++ [(id, Settlement.rejectedTimeout (timeoutMessage method id))] ∧
    (∃ a b, timeoutMessage method id = a ++ (method ++ b)) ∧
    (∃ a b, timeoutMessage method id = a ++ (id ++ b)) := by
  have hne : s.responseTimeout ≠ 0 := by
    rw [hcfg]; exact Nat.pos_iff_ne_zero.mp hT
  have hcr : callRegister s t0 id method =
      { s with idAwaiter := insertEntry s.idAwaiter id ⟨method, some (t0 + T)⟩ } := by
    simp [callRegister, hne, hcfg, (Nat.pos_iff_ne_zero.mp hT : T ≠ 0)]
  rw [hcr] at hfire ⊢
  have hlook :
      lookupEntry (insertEntry s.idAwaiter id ⟨method, some (t0 + T)⟩) id =
        some ⟨method, some (t0 + T)⟩ :=
    lookupEntry_insertEntry_self _ _ _
  have hft :
      fireTimeout { s with idAwaiter := insertEntry s.idAwaiter id ⟨method, some (t0 + T)⟩ } id =
      { s with
        idAwaiter := eraseKey (insertEntry s.idAwaiter id ⟨method, some (t0 + T)⟩) id
        settlements := s.settlements ++
          [(id, Settlement.rejectedTimeout (timeoutMessage method id))] } := by
    simp [fireTimeout, hlook]
  refine ⟨?_, ?_, ?_, ?_, ?_⟩
  · simpa [timerCanFire, hlook] using hfire
  · rw [hft]
    exact lookupEntry_eraseKey_self _ _
  · rw [hft]
  · exact ⟨"Awaiting response to: ", " with id: " ++ (id ++ " timed out."), rfl⟩
  · exact ⟨"Awaiting response to: " ++ (method ++ " with id: "), " timed out.",
      by simp [timeoutMessage, strAppend_assoc]⟩

/-- Witness for C3: `responseTimeout = 50`, `call("m")` registered under id
`"a"` at time 0, timer firing at time 50. -/
theorem c3_timeout_settlement_witness :
    0 + 50 ≤ 50 ∧
    lookupEntry (fireTimeout (callRegister c3wS 0 "a" "m") "a").idAwaiter "a" = none ∧
    (fireTimeout (callRegister c3wS 0 "a" "m") "a").settlements =
      c3wS.settlements ++ [("a", Settlement.rejectedTimeout (timeoutMessage "m" "a"))] ∧
    (∃ a b, timeoutMessage "m" "a" = a ++ ("m" ++ b)) ∧
    (∃ a b, timeoutMessage "m" "a" = a ++ ("a" ++ b)) :=
  c3_timeout_settlement c3wS 0 "a" "m" 50 (by decide) rfl 50 rfl

/-- C4 counterexample: `{"id":"a","result":{"code":7,"message":"oops"}}`
classifies as SuccessResponse and correlates to a live pending call, yet the
call is rejected with the result object instead of being resolved with it —
the awaiter re-inspects the payload with `isRpcError` (defined `code`
property) instead of following the message's classification. -/
theorem c4_success_with_code_counterexample :
    classify c4Msg = RpcCategory.successResponseMsg ∧
    processMessage c4State c4Msg = .ok
      { idAwaiter := [], responseTimeout := 10,
        settlements := [("a", Settlement.rejectedWith c4Result)] } ∧
    Settlement.rejectedWith c4Result ≠ Settlement.resolvedWith c4Result :=
  ⟨rfl, rfl, fun h => Settlement.noConfusion h⟩

/-- C4 amended: for a response correlated to a live pending call, settlement
follows the delivered payload's shape (`isRpcError`: a defined `code`
property), not the message's classification: a SuccessResponse whose result
has no defined `code` property resolves the call with the result; a
SuccessResponse whose result does carry a `code` property rejects the call
with that result; an ErrorResponse whose `{code, message, data?}` error
object carries `code` rejects the call with that error object verbatim. In
every case the entry is removed from the table. -/
theorem c4_settlement_follows_payload (s : ClientState) (d : JsValue)
    (hn : isNotification d = false) (hr : isRequest d = false)
    (hlive : (lookupEntry s.idAwaiter (jsKey (getField d "id"))).isSome = true) :
    (isSuccessResponse d = true →
      jsIsRpcError (getField d "result") = .ok false →
      processMessage s d = .ok
        { s with
          idAwaiter := eraseKey s.idAwaiter (jsKey (getField d "id"))
          settlements := s.settlements ++
            [(jsKey (getField d "id"), Settlement.resolvedWith (getField d "result"))] }) ∧
    (isSuccessResponse d = true →
      jsIsRpcError (getField d "result") = .ok true →
      processMessage s d = .ok
        { s with
          idAwaiter := eraseKey s.idAwaiter (jsKey (getField d "id"))
          settlements := s.settlements ++
            [(jsKey (getField d "id"), Settlement.rejectedWith (getField d "result"))] }) ∧
    (isSuccessResponse d = false → isErrorResponse d = true →
      jsIsRpcError (getField d "error") = .ok true →
      processMessage s d = .ok
        { s with
          idAwaiter := eraseKey s.idAwaiter (jsKey (getField d "id"))
          settlements := s.settlements ++
            [(jsKey (getField d "id"), Settlement.rejectedWith (getField d "error"))] }) := by
  obtain ⟨pc, hpc⟩ := Option.isSome_iff_exists.mp hlive
  refine ⟨?_, ?_, ?_⟩
  · intro hs hrpc
    simp [processMessage, hn, hr, hs, hpc, invokeAwaiter, hrpc]
  · intro hs hrpc
    simp [processMessage, hn, hr, hs, hpc, invokeAwaiter, hrpc]
  · intro hs he hrpc
    simp [processMessage, hn, hr, hs, he, hpc, invokeAwaiter, hrpc]

/-- Witness for C4 amended: a plain success response `{"id":"b","result":5}`
against a live pending call resolves with `5` and empties the table. -/
theorem c4_settlement_follows_payload_witness :
    processMessage c4wState c4wMsg = .ok
      { c4wState with
        idAwaiter := eraseKey c4wState.idAwaiter "b"
        settlements := [("b", Settlement.resolvedWith (JsValue.num 5))] } :=
  (c4_settlement_follows_payload c4wState c4wMsg rfl rfl rfl).1 rfl rfl
